import Mathlib

/-!
Verification of the Session Router and Session Store of the support-relay
bot (`src/bot.py`), as a shallow embedding.

Modelling conventions:
* SQLite timestamps are natural numbers; every handler receives the
  current time `now` as a parameter.
* The `users` table is a list of rows; `user_id` is the primary key.
  `INSERT OR REPLACE` deletes any conflicting row and inserts a fresh row
  in which every column that is absent from the statement's column list is
  filled with its schema default (so `first_seen` receives
  `CURRENT_TIMESTAMP`, i.e. `now`).
* The `support_sessions` table is a list of rows; `session_id` values are
  handed out by the AUTOINCREMENT counter `nextSid`, which starts at 1.
* The Python dict `active_chats` is an association list in insertion
  order (keys are unique); `admin_replying_to` and the admin's
  `user_data["broadcast_type"]` are `Option` values, since there is a
  single operator.
* Outbound transport calls that the source wraps in try/except receive a
  success oracle (`ok`, `delOk`); calls the source does not guard are
  modelled as succeeding.  The message id assigned by the transport to a
  message forwarded to the operator is the parameter `adminMsgId`.
-/

namespace SupportBot

inductive SessionStatus where
  | active
  | closed
deriving DecidableEq

inductive EndReason where
  | admin
  | user
  | system
deriving DecidableEq

/-- A row of the `support_sessions` table. -/
structure SupportSession where
  session_id : Nat
  user_id : Nat
  started_at : Nat
  ended_at : Option Nat
  ended_by : Option EndReason
  message_count : Nat
  status : SessionStatus
deriving DecidableEq

/-- A row of the `users` table. -/
structure UserRow where
  user_id : Nat
  username : Option String
  full_name : String
  first_seen : Nat
  last_seen : Nat
  total_messages : Nat
  is_active : Bool
deriving DecidableEq

/-- One value of the in-memory `active_chats` dict. -/
structure ChatEntry where
  in_support : Bool
  waiting_for_first_message : Bool
  username : Option String
  full_name : String
  admin_message_ids : List Nat
  session_id : Nat
  message_count : Nat
deriving DecidableEq

inductive BroadcastType where
  | all
  | activeChats
deriving DecidableEq

/-- The whole mutable state of the process: the two database tables, the
AUTOINCREMENT counter, and the three in-memory stores. -/
structure BotState where
  users : List UserRow
  sessions : List SupportSession
  nextSid : Nat
  active_chats : List (Nat × ChatEntry)
  admin_replying_to : Option Nat
  broadcast_type : Option BroadcastType
deriving DecidableEq

def initialState : BotState :=
  { users := [], sessions := [], nextSid := 1, active_chats := [],
    admin_replying_to := none, broadcast_type := none }

/-- Outbound effects a handler performs, abstracted from message text. -/
inductive Action where
  | supportConfirm (uid : Nat)
  | forwardToAdmin (fromUser : Nat) (newRequest : Bool)
  | userAck (uid : Nat) (first : Bool)
  | showMainMenu (uid : Nat)
  | showAdminPanel
  | adminReply (toUser : Nat)
  | replyConfirm (toUser : Nat)
  | replyFailed (toUser : Nat)
  | broadcastStatus (targetCount : Nat)
  | broadcastSend (toUser : Nat)
  | broadcastSummary (targetCount successCount failCount : Nat)
  | broadcastNoTargets
  | noBroadcastType
  | endSupportAck (uid : Nat)
  | notifyAdminEnded (uid : Nat)
  | closeSummary (uid deletedCount : Nat)
  | notifyUserClosed (uid : Nat)
  | deleteAdminMsg (msgId : Nat)
  | blockedConfirm (uid : Nat)
  | notifyBlocked (uid : Nat)
  | unblockedConfirm (uid : Nat)
  | replyModeActivated (uid : Nat)
  | broadcastPromptMsg (t : BroadcastType)
deriving DecidableEq

/-! ### Association-list operations for the `active_chats` dict -/

def lookupChat (u : Nat) : List (Nat × ChatEntry) → Option ChatEntry
  | [] => none
  | (k, e) :: rest => if k = u then some e else lookupChat u rest

/-- Dict assignment `active_chats[u] = e` (replace in place or append). -/
def insertChat (u : Nat) (e : ChatEntry) : List (Nat × ChatEntry) → List (Nat × ChatEntry)
  | [] => [(u, e)]
  | (k, e0) :: rest => if k = u then (u, e) :: rest else (k, e0) :: insertChat u e rest

/-- Dict removal `active_chats.pop(u, None)`. -/
def removeChat (u : Nat) : List (Nat × ChatEntry) → List (Nat × ChatEntry)
  | [] => []
  | (k, e0) :: rest => if k = u then removeChat u rest else (k, e0) :: removeChat u rest

/-! ### Database functions (`bot.py` lines 137-242, 1079-1116, 1176-1193) -/

def lookupUser (u : Nat) (users : List UserRow) : Option UserRow :=
  users.find? (fun r => r.user_id == u)

/-- Model of `update_user_stats`: `INSERT OR REPLACE INTO users (user_id, username,
full_name, last_seen, total_messages, is_active) VALUES (?, ?, ?,
CURRENT_TIMESTAMP, COALESCE((SELECT total_messages FROM users WHERE
user_id = ?) + 1, 1), 1)`.  The column list omits `first_seen`, so the
replacing row takes the schema default `CURRENT_TIMESTAMP` for it. -/
def update_user_stats (now u : Nat) (uname : Option String) (fname : String)
    (users : List UserRow) : List UserRow :=
  let newRow : UserRow :=
    { user_id := u, username := uname, full_name := fname,
      first_seen := now, last_seen := now,
      total_messages := match lookupUser u users with
        | some r => r.total_messages + 1
        | none => 1,
      is_active := true }
  users.filter (fun r => r.user_id != u) ++ [newRow]

/-- Model of `start_support_session`: insert an `active` row, return its id. -/
def start_support_session (now u : Nat) (sessions : List SupportSession)
    (nextSid : Nat) : List SupportSession × Nat × Nat :=
  (sessions ++ [{ session_id := nextSid, user_id := u, started_at := now,
                  ended_at := none, ended_by := none, message_count := 0,
                  status := .active }],
   nextSid + 1, nextSid)

/-- Model of `end_support_session`: `UPDATE support_sessions SET ended_at =
CURRENT_TIMESTAMP, ended_by = ?, message_count = ?, status = 'closed'
WHERE session_id = ?`. -/
def end_support_session (now sid : Nat) (reason : EndReason) (count : Nat)
    (sessions : List SupportSession) : List SupportSession :=
  sessions.map (fun sess =>
    if sess.session_id = sid then
      { sess with ended_at := some now, ended_by := some reason,
                  message_count := count, status := .closed }
    else sess)

/-- Model of `get_all_user_ids`: `SELECT user_id FROM users WHERE is_active = 1`. -/
def get_all_user_ids (users : List UserRow) : List Nat :=
  (users.filter (fun r => r.is_active)).map (fun r => r.user_id)

/-- The statement `UPDATE users SET is_active = 0 WHERE user_id = ?` (block branch). -/
def blockUser (u : Nat) (users : List UserRow) : List UserRow :=
  users.map (fun r => if r.user_id = u then { r with is_active := false } else r)

/-- The statement `UPDATE users SET is_active = 1 WHERE user_id = ?` (unblock branch). -/
def unblockUser (u : Nat) (users : List UserRow) : List UserRow :=
  users.map (fun r => if r.user_id = u then { r with is_active := true } else r)

/-- Model of `cleanup_database`: close every still-`active` row with reason
`system`, leaving its `message_count` as last recorded. -/
def cleanup_database (now : Nat) (sessions : List SupportSession) : List SupportSession :=
  sessions.map (fun sess =>
    if sess.status = .active then
      { sess with ended_at := some now, ended_by := some .system, status := .closed }
    else sess)

/-! ### Handlers -/

/-- Model of `start_support_chat` (lines 345-379): unconditionally opens a new
session and overwrites any existing `active_chats` entry. -/
def start_support_chat (now u : Nat) (uname : Option String) (fname : String)
    (s : BotState) : BotState × List Action :=
  let r := start_support_session now u s.sessions s.nextSid
  let entry : ChatEntry :=
    { in_support := true, waiting_for_first_message := true,
      username := uname, full_name := fname, admin_message_ids := [],
      session_id := r.2.2, message_count := 0 }
  ({ s with sessions := r.1, nextSid := r.2.1,
            active_chats := insertChat u entry s.active_chats },
   [.supportConfirm u])

/-- Model of `handle_user_support_message` (lines 381-444). -/
def handle_user_support_message (now adminMsgId u : Nat) (uname : Option String)
    (fname : String) (s : BotState) : BotState × List Action :=
  match lookupChat u s.active_chats with
  | none => (s, [.showMainMenu u])
  | some e =>
    if e.in_support = false then (s, [.showMainMenu u])
    else
      let users1 := update_user_stats now u uname fname s.users
      if e.waiting_for_first_message then
        let e2 : ChatEntry :=
          { e with message_count := e.message_count + 1,
                   waiting_for_first_message := false,
                   admin_message_ids := e.admin_message_ids ++ [adminMsgId] }
        ({ s with users := users1, active_chats := insertChat u e2 s.active_chats },
         [.forwardToAdmin u true, .userAck u true])
      else
        let e2 : ChatEntry :=
          { e with message_count := e.message_count + 1,
                   admin_message_ids := e.admin_message_ids ++ [adminMsgId] }
        ({ s with users := users1, active_chats := insertChat u e2 s.active_chats },
         [.forwardToAdmin u false, .userAck u false])

/-- The send loop of `handle_broadcast` (lines 803-815): skip the
operator's own id, attempt one send per remaining id, count successes and
failures independently. -/
def broadcastLoop (adminId : Nat) (ok : Nat → Bool) : List Nat → Nat × Nat × List Action
  | [] => (0, 0, [])
  | u :: rest =>
    if u = adminId then broadcastLoop adminId ok rest
    else
      let r := broadcastLoop adminId ok rest
      if ok u then (r.1 + 1, r.2.1, .broadcastSend u :: r.2.2)
      else (r.1, r.2.1 + 1, .broadcastSend u :: r.2.2)

/-- Target resolution in `handle_broadcast` (lines 772-777). -/
def resolveTargets (bt : BroadcastType) (s : BotState) : List Nat :=
  match bt with
  | .all => get_all_user_ids s.users
  | .activeChats => (s.active_chats.filter (fun p => p.2.in_support)).map (fun p => p.1)

/-- Model of `handle_broadcast` (lines 763-842). -/
def handle_broadcast (adminId : Nat) (ok : Nat → Bool) (s : BotState) :
    BotState × List Action :=
  match s.broadcast_type with
  | none => (s, [.noBroadcastType])
  | some bt =>
    let targets := resolveTargets bt s
    if targets.isEmpty then
      ({ s with broadcast_type := none }, [.broadcastNoTargets])
    else
      let r := broadcastLoop adminId ok targets
      ({ s with broadcast_type := none },
       .broadcastStatus targets.length :: r.2.2
         ++ [.broadcastSummary targets.length r.1 r.2.1])

/-- Model of `admin_reply_handler` (lines 716-761): broadcast-composition mode is
checked first; otherwise a set ReplyTarget is consumed on a successful
send (a failed send leaves the ReplyTarget set). -/
def admin_reply_handler (adminId : Nat) (ok : Nat → Bool) (s : BotState) :
    BotState × List Action :=
  if s.broadcast_type.isSome then handle_broadcast adminId ok s
  else
    match s.admin_replying_to with
    | none => (s, [.showAdminPanel])
    | some target =>
      if ok target then
        ({ s with admin_replying_to := none },
         [.adminReply target, .replyConfirm target])
      else
        (s, [.replyFailed target])

/-- Model of `handle_user_messages` (lines 884-899): route a text message. -/
def handle_user_messages (adminId now adminMsgId u : Nat) (uname : Option String)
    (fname : String) (ok : Nat → Bool) (s : BotState) : BotState × List Action :=
  if u = adminId then admin_reply_handler adminId ok s
  else
    match lookupChat u s.active_chats with
    | some e =>
      if e.in_support then handle_user_support_message now adminMsgId u uname fname s
      else
        ({ s with users := update_user_stats now u uname fname s.users },
         [.showMainMenu u])
    | none =>
      ({ s with users := update_user_stats now u uname fname s.users },
       [.showMainMenu u])

/-- The `end_support` branch of `user_callback_handler` (lines 854-881):
close the entry's session (when its id is truthy), drop the entry, then
acknowledge and notify the operator in every case. -/
def end_support_handler (now u : Nat) (s : BotState) : BotState × List Action :=
  match lookupChat u s.active_chats with
  | some e =>
    ({ s with
        sessions := if e.session_id ≠ 0 then
            end_support_session now e.session_id EndReason.user e.message_count s.sessions
          else s.sessions,
        active_chats := removeChat u s.active_chats },
     [.endSupportAck u, .notifyAdminEnded u])
  | none => (s, [.endSupportAck u, .notifyAdminEnded u])

/-- The `/start` command handler `start` (lines 319-342). -/
def start_handler (adminId now u : Nat) (uname : Option String) (fname : String)
    (s : BotState) : BotState × List Action :=
  let users1 := update_user_stats now u uname fname s.users
  match lookupChat u s.active_chats with
  | some e =>
    ({ s with
        users := users1,
        sessions := if e.session_id ≠ 0 then
            end_support_session now e.session_id EndReason.user e.message_count s.sessions
          else s.sessions,
        active_chats := removeChat u s.active_chats },
     if u = adminId then [.showAdminPanel] else [.showMainMenu u])
  | none =>
    ({ s with users := users1 },
     if u = adminId then [.showAdminPanel] else [.showMainMenu u])

/-- The `close_clean_` branch of `admin_chat_callback` (lines 608-676):
close the entry's session with reason `admin`, attempt each recorded
message deletion independently, drop the entry. -/
def close_clean_handler (now u : Nat) (delOk : Nat → Bool) (s : BotState) :
    BotState × List Action :=
  match lookupChat u s.active_chats with
  | some e =>
    ({ s with
        sessions := if e.session_id ≠ 0 then
            end_support_session now e.session_id EndReason.admin e.message_count s.sessions
          else s.sessions,
        active_chats := removeChat u s.active_chats },
     e.admin_message_ids.map Action.deleteAdminMsg
       ++ [.closeSummary u (e.admin_message_ids.filter delOk).length,
           .notifyUserClosed u])
  | none =>
    ({ s with active_chats := removeChat u s.active_chats },
     [.closeSummary u 0, .notifyUserClosed u])

/-- The `block_` branch of `block_user_handler` (lines 1075-1108): clear
the active flag in the database and drop any `active_chats` entry; the
session row is not touched. -/
def block_handler (u : Nat) (s : BotState) : BotState × List Action :=
  ({ s with users := blockUser u s.users,
            active_chats := removeChat u s.active_chats },
   [.blockedConfirm u, .notifyBlocked u])

/-- The `unblock_` branch of `block_user_handler` (lines 1110-1127). -/
def unblock_handler (u : Nat) (s : BotState) : BotState × List Action :=
  ({ s with users := unblockUser u s.users }, [.unblockedConfirm u])

/-- One inbound event, as delivered by the registered telegram handlers.
Callback events that only the operator's panels can emit (`replyBtn`,
`closeCleanBtn`, `blockBtn`, `unblockBtn`, the broadcast selectors) stand
for callbacks already past the `effective_user.id != ADMIN_ID` check. -/
inductive Event where
  | textMsg (u : Nat) (uname : Option String) (fname : String) (ok : Nat → Bool)
  | helpSupport (u : Nat) (uname : Option String) (fname : String)
  | endSupportBtn (u : Nat)
  | startCmd (u : Nat) (uname : Option String) (fname : String)
  | replyBtn (target : Nat)
  | closeCleanBtn (target : Nat) (delOk : Nat → Bool)
  | blockBtn (target : Nat)
  | unblockBtn (target : Nat)
  | broadcastAllBtn
  | broadcastActiveBtn
  | shutdown

/-- The Session Router: dispatch one event (the process serializes event
handling, so this is the whole behaviour). -/
def step (adminId now adminMsgId : Nat) (s : BotState) (e : Event) :
    BotState × List Action :=
  match e with
  | .textMsg u uname fname ok => handle_user_messages adminId now adminMsgId u uname fname ok s
  | .helpSupport u uname fname => start_support_chat now u uname fname s
  | .endSupportBtn u => end_support_handler now u s
  | .startCmd u uname fname => start_handler adminId now u uname fname s
  | .replyBtn target => ({ s with admin_replying_to := some target }, [.replyModeActivated target])
  | .closeCleanBtn target delOk => close_clean_handler now target delOk s
  | .blockBtn target => block_handler target s
  | .unblockBtn target => unblock_handler target s
  | .broadcastAllBtn => ({ s with broadcast_type := some .all }, [.broadcastPromptMsg .all])
  | .broadcastActiveBtn => ({ s with broadcast_type := some .activeChats }, [.broadcastPromptMsg .activeChats])
  | .shutdown => ({ s with sessions := cleanup_database now s.sessions }, [])

/-! ### Invariants -/

/-- Number of `active` session rows owned by `u`. -/
def countActiveFor (u : Nat) (sessions : List SupportSession) : Nat :=
  sessions.countP (fun sess => decide (sess.user_id = u ∧ sess.status = .active))

/-- The §8.1 invariant: at most one `active` SupportSession per user. -/
def AtMostOneActive (s : BotState) : Prop :=
  ∀ u, countActiveFor u s.sessions ≤ 1

/-- Session ids are positive, both in the table, in every `active_chats`
entry, and as the next AUTOINCREMENT value (ids start at 1). -/
structure PosInv (s : BotState) : Prop where
  nextPos : 0 < s.nextSid
  entryPos : ∀ u e, lookupChat u s.active_chats = some e → 0 < e.session_id

/-- The inductive session/store correspondence: session ids are fresh and
unique, every `active` row is the one its owner's entry tracks, and every
entry tracks an `active` row. -/
structure SessInv (s : BotState) : Prop where
  fresh : ∀ sess ∈ s.sessions, sess.session_id < s.nextSid
  nodup : (s.sessions.map (fun sess => sess.session_id)).Nodup
  trackedOfActive : ∀ sess ∈ s.sessions, sess.status = .active →
    ∃ e, lookupChat sess.user_id s.active_chats = some e ∧
      e.session_id = sess.session_id
  activeOfEntry : ∀ u e, lookupChat u s.active_chats = some e →
    ∃ sess ∈ s.sessions, sess.user_id = u ∧ sess.session_id = e.session_id ∧
      sess.status = .active

/-- Transition guards under which the session/store correspondence is
inductive: the support entry point is only invoked from `IDLE`, and only
`IDLE` users are blocked. -/
def Guard (s : BotState) (e : Event) : Prop :=
  match e with
  | .helpSupport u _ _ => lookupChat u s.active_chats = none
  | .blockBtn u => lookupChat u s.active_chats = none
  | _ => True

/-! ### Helper lemmas: association list operations -/

theorem lookupChat_insert_self (u : Nat) (e : ChatEntry) (l : List (Nat × ChatEntry)) :
    lookupChat u (insertChat u e l) = some e := by
  induction l with
  | nil => simp [insertChat, lookupChat]
  | cons p rest ih =>
    by_cases h : p.1 = u
    · simp [insertChat, lookupChat, h]
    · simp [insertChat, lookupChat, h, ih]

theorem lookupChat_insert_ne {v u : Nat} (h : v ≠ u) (e : ChatEntry)
    (l : List (Nat × ChatEntry)) :
    lookupChat v (insertChat u e l) = lookupChat v l := by
  have huv : ¬ u = v := fun hh => h hh.symm
  induction l with
  | nil => simp [insertChat, lookupChat, huv]
  | cons p rest ih =>
    obtain ⟨k, e0⟩ := p
    by_cases hp : k = u
    · subst hp
      simp [insertChat, lookupChat, huv]
    · simp [insertChat, lookupChat, hp, ih]

theorem lookupChat_remove_self (u : Nat) (l : List (Nat × ChatEntry)) :
    lookupChat u (removeChat u l) = none := by
  induction l with
  | nil => simp [removeChat, lookupChat]
  | cons p rest ih =>
    obtain ⟨k, e0⟩ := p
    by_cases h : k = u
    · simp [removeChat, h, ih]
    · simp [removeChat, lookupChat, h, ih]

theorem lookupChat_remove_ne {v u : Nat} (h : v ≠ u) (l : List (Nat × ChatEntry)) :
    lookupChat v (removeChat u l) = lookupChat v l := by
  have huv : ¬ u = v := fun hh => h hh.symm
  induction l with
  | nil => simp [removeChat]
  | cons p rest ih =>
    obtain ⟨k, e0⟩ := p
    by_cases hp : k = u
    · subst hp
      simp [removeChat, lookupChat, huv, ih]
    · simp [removeChat, lookupChat, hp, ih]

/-! ### Helper lemmas: counting -/

theorem countP_le_one_of_const {α β : Type} (l : List α) (f : α → β) (p : α → Bool)
    (c : β) (hnd : (l.map f).Nodup) (h : ∀ x ∈ l, p x = true → f x = c) :
    l.countP p ≤ 1 := by
  induction l with
  | nil => simp
  | cons a rest ih =>
    rw [List.map_cons, List.nodup_cons] at hnd
    by_cases hp : p a = true
    · rw [List.countP_cons_of_pos _ _ hp]
      have hzero : rest.countP p = 0 := by
        rw [List.countP_eq_zero]
        intro b hb hpb
        have hfa : f a = f b := by
          rw [h a (List.mem_cons_self a rest) hp, h b (List.mem_cons_of_mem a hb) hpb]
        exact hnd.1 (by rw [hfa]; exact List.mem_map_of_mem f hb)
      omega
    · rw [List.countP_cons_of_neg _ _ (by simp [hp])]
      exact ih hnd.2 (fun x hx hpx => h x (by simp [hx]) hpx)

theorem end_support_session_map_sid (now sid : Nat) (reason : EndReason) (cnt : Nat)
    (l : List SupportSession) :
    (end_support_session now sid reason cnt l).map (fun sess => sess.session_id)
      = l.map (fun sess => sess.session_id) := by
  unfold end_support_session
  induction l with
  | nil => rfl
  | cons a rest ih =>
    simp only [List.map_cons, ih]
    split <;> rfl

theorem countActiveFor_cleanup (now u : Nat) (l : List SupportSession) :
    countActiveFor u (cleanup_database now l) = 0 := by
  unfold countActiveFor cleanup_database
  rw [List.countP_eq_zero]
  intro a ha
  rw [List.mem_map] at ha
  obtain ⟨b, _, rfl⟩ := ha
  by_cases hb : b.status = .active <;> simp [hb]

/-! ### Helper lemmas: invariant plumbing -/

theorem sessInv_of_eq {s t : BotState} (h : SessInv s) (h1 : t.sessions = s.sessions)
    (h2 : t.nextSid = s.nextSid) (h3 : t.active_chats = s.active_chats) : SessInv t := by
  obtain ⟨hf, hnd, htr, hae⟩ := h
  exact ⟨by rw [h1, h2]; exact hf, by rw [h1]; exact hnd,
         by rw [h1, h3]; exact htr, by rw [h1, h3]; exact hae⟩

theorem posInv_of_eq {s t : BotState} (h : PosInv s) (h2 : t.nextSid = s.nextSid)
    (h3 : t.active_chats = s.active_chats) : PosInv t := by
  obtain ⟨hn, he⟩ := h
  exact ⟨by rw [h2]; exact hn, by rw [h3]; exact he⟩

theorem lookupChat_remove_some {w u : Nat} {e : ChatEntry} {l : List (Nat × ChatEntry)}
    (h : lookupChat w (removeChat u l) = some e) : lookupChat w l = some e := by
  by_cases hw : w = u
  · subst hw
    rw [lookupChat_remove_self] at h
    cases h
  · rwa [lookupChat_remove_ne hw] at h

/-- The correspondence `SessInv` gives the global at-most-one-active property. -/
theorem atMostOneActive_of_sessInv {s : BotState} (h : SessInv s) : AtMostOneActive s := by
  intro u
  unfold countActiveFor
  match hl : lookupChat u s.active_chats with
  | some e =>
    refine countP_le_one_of_const _ (fun sess => sess.session_id) _ e.session_id h.nodup ?_
    intro sess hs hp
    rw [decide_eq_true_eq] at hp
    obtain ⟨e2, he2, hsid⟩ := h.trackedOfActive sess hs hp.2
    rw [hp.1, hl] at he2
    simp only [Option.some.injEq] at he2
    show sess.session_id = e.session_id
    rw [he2]
    exact hsid.symm
  | none =>
    have hz : s.sessions.countP
        (fun sess => decide (sess.user_id = u ∧ sess.status = .active)) = 0 := by
      rw [List.countP_eq_zero]
      intro sess hs hp
      rw [decide_eq_true_eq] at hp
      obtain ⟨e2, he2, _⟩ := h.trackedOfActive sess hs hp.2
      rw [hp.1, hl] at he2
      cases he2
    omega

/-- Closing the session tracked by `u`'s entry and discarding the entry
preserves the correspondence. -/
theorem sessInv_closeRemove {s : BotState} {u : Nat} {e : ChatEntry}
    (h : SessInv s) (hl : lookupChat u s.active_chats = some e)
    (now cnt : Nat) (reason : EndReason) :
    SessInv { s with
      sessions := end_support_session now e.session_id reason cnt s.sessions,
      active_chats := removeChat u s.active_chats } := by
  obtain ⟨hf, hnd, htr, hae⟩ := h
  refine ⟨?_, ?_, ?_, ?_⟩
  · intro sess' hmem
    simp only [end_support_session, List.mem_map] at hmem
    obtain ⟨sess, hs, rfl⟩ := hmem
    have hlt := hf sess hs
    split <;> simpa using hlt
  · show ((end_support_session now e.session_id reason cnt s.sessions).map
      (fun sess => sess.session_id)).Nodup
    rw [end_support_session_map_sid]
    exact hnd
  · intro sess' hmem hact
    simp only [end_support_session, List.mem_map] at hmem
    obtain ⟨sess, hs, rfl⟩ := hmem
    by_cases hsid : sess.session_id = e.session_id
    · rw [if_pos hsid] at hact
      simp at hact
    · simp only [if_neg hsid] at hact ⊢
      obtain ⟨e2, he2, hsid2⟩ := htr sess hs hact
      have hne : sess.user_id ≠ u := by
        intro hq
        rw [hq, hl] at he2
        simp only [Option.some.injEq] at he2
        rw [← he2] at hsid2
        exact hsid hsid2.symm
      exact ⟨e2, by rw [lookupChat_remove_ne hne]; exact he2, hsid2⟩
  · intro w e2 hw
    have hwu : w ≠ u := by
      intro hq
      subst hq
      rw [lookupChat_remove_self] at hw
      cases hw
    rw [lookupChat_remove_ne hwu] at hw
    obtain ⟨r, hr, hru, hrs, hra⟩ := hae w e2 hw
    have hrsid : r.session_id ≠ e.session_id := by
      intro hq
      obtain ⟨ru, hru2, hruu, hrus, _⟩ := hae u e hl
      have hreq : r = ru :=
        List.inj_on_of_nodup_map hnd hr hru2 (by rw [hq, hrus])
      rw [hreq, hruu] at hru
      exact hwu hru.symm
    refine ⟨r, ?_, hru, hrs, hra⟩
    simp only [end_support_session, List.mem_map]
    exact ⟨r, hr, by rw [if_neg hrsid]⟩

/-- Discarding a non-existent entry preserves the correspondence. -/
theorem sessInv_removeIdle {s : BotState} {u : Nat} (h : SessInv s)
    (hl : lookupChat u s.active_chats = none) :
    SessInv { s with active_chats := removeChat u s.active_chats } := by
  obtain ⟨hf, hnd, htr, hae⟩ := h
  refine ⟨hf, hnd, ?_, ?_⟩
  · intro sess hs hact
    obtain ⟨e2, he2, hsid⟩ := htr sess hs hact
    have hne : sess.user_id ≠ u := by
      intro hq
      rw [hq, hl] at he2
      cases he2
    exact ⟨e2, by rw [lookupChat_remove_ne hne]; exact he2, hsid⟩
  · intro w e2 hw
    exact hae w e2 (lookupChat_remove_some hw)

/-- The fresh entry written by `start_support_chat`. -/
def freshEntry (uname : Option String) (fname : String) (sid : Nat) : ChatEntry :=
  { in_support := true, waiting_for_first_message := true, username := uname,
    full_name := fname, admin_message_ids := [], session_id := sid,
    message_count := 0 }

/-- The fresh session row written by `start_support_chat`. -/
def freshSession (sid u now : Nat) : SupportSession :=
  { session_id := sid, user_id := u, started_at := now, ended_at := none,
    ended_by := none, message_count := 0, status := .active }

theorem start_support_chat_eq (now u : Nat) (uname : Option String) (fname : String)
    (s : BotState) :
    start_support_chat now u uname fname s =
      ({ s with sessions := s.sessions ++ [freshSession s.nextSid u now],
                nextSid := s.nextSid + 1,
                active_chats := insertChat u (freshEntry uname fname s.nextSid) s.active_chats },
       [.supportConfirm u]) := rfl

/-- Opening a session from `IDLE` preserves the correspondence. -/
theorem sessInv_press {s : BotState} {u : Nat} (h : SessInv s)
    (hl : lookupChat u s.active_chats = none) (now : Nat) (uname : Option String)
    (fname : String) :
    SessInv (start_support_chat now u uname fname s).1 := by
  obtain ⟨hf, hnd, htr, hae⟩ := h
  rw [start_support_chat_eq]
  refine ⟨?_, ?_, ?_, ?_⟩
  · intro sess hs
    simp only [List.mem_append, List.mem_singleton] at hs
    show sess.session_id < s.nextSid + 1
    rcases hs with hs | rfl
    · exact Nat.lt_succ_of_lt (hf sess hs)
    · exact Nat.lt_succ_self _
  · show ((s.sessions ++ [freshSession s.nextSid u now]).map
      (fun sess => sess.session_id)).Nodup
    rw [List.map_append, List.nodup_append]
    refine ⟨hnd, by simp, ?_⟩
    intro x hx hx2
    simp only [List.map_cons, List.map_nil, List.mem_singleton] at hx2
    rw [List.mem_map] at hx
    obtain ⟨sess, hs, rfl⟩ := hx
    have hlt := hf sess hs
    rw [hx2] at hlt
    simp [freshSession] at hlt
  · intro sess hs hact
    simp only [List.mem_append, List.mem_singleton] at hs
    rcases hs with hs | rfl
    · obtain ⟨e2, he2, hsid⟩ := htr sess hs hact
      have hne : sess.user_id ≠ u := by
        intro hq
        rw [hq, hl] at he2
        cases he2
      exact ⟨e2, by rw [lookupChat_insert_ne hne]; exact he2, hsid⟩
    · refine ⟨freshEntry uname fname s.nextSid, ?_, rfl⟩
      exact lookupChat_insert_self u _ s.active_chats
  · intro w e2 hw
    by_cases hwu : w = u
    · subst hwu
      rw [lookupChat_insert_self] at hw
      simp only [Option.some.injEq] at hw
      refine ⟨freshSession s.nextSid w now, by simp, rfl, ?_, rfl⟩
      rw [← hw]
      rfl
    · rw [lookupChat_insert_ne hwu] at hw
      obtain ⟨r, hr, hru, hrs, hra⟩ := hae w e2 hw
      exact ⟨r, by simp [hr], hru, hrs, hra⟩

/-- Replacing `u`'s entry by one tracking the same session id preserves
the correspondence (the message-forwarding transitions). -/
theorem sessInv_entryUpdate {s : BotState} {u : Nat} {e e2 : ChatEntry}
    (h : SessInv s) (hl : lookupChat u s.active_chats = some e)
    (hsid : e2.session_id = e.session_id) (users1 : List UserRow) :
    SessInv { s with users := users1, active_chats := insertChat u e2 s.active_chats } := by
  obtain ⟨hf, hnd, htr, hae⟩ := h
  refine ⟨hf, hnd, ?_, ?_⟩
  · intro sess hs hact
    obtain ⟨e3, he3, hsid3⟩ := htr sess hs hact
    by_cases hne : sess.user_id = u
    · rw [hne, hl] at he3
      simp only [Option.some.injEq] at he3
      refine ⟨e2, ?_, ?_⟩
      · rw [hne, lookupChat_insert_self]
      · rw [hsid, he3]
        exact hsid3
    · exact ⟨e3, by rw [lookupChat_insert_ne hne]; exact he3, hsid3⟩
  · intro w e3 hw
    by_cases hwu : w = u
    · subst hwu
      rw [lookupChat_insert_self] at hw
      simp only [Option.some.injEq] at hw
      obtain ⟨r, hr, hru, hrs, hra⟩ := hae w e hl
      refine ⟨r, hr, hru, ?_, hra⟩
      rw [← hw, hsid]
      exact hrs
    · rw [lookupChat_insert_ne hwu] at hw
      exact hae w e3 hw

/-! ### Branch equations for the handlers -/

theorem handle_user_messages_admin {u aid : Nat} (hu : u = aid)
    (now mid : Nat) (uname : Option String) (fname : String) (ok : Nat → Bool)
    (s : BotState) :
    handle_user_messages aid now mid u uname fname ok s = admin_reply_handler aid ok s := by
  simp [handle_user_messages, hu]

theorem handle_user_messages_idle {u aid : Nat} {s : BotState} (hu : u ≠ aid)
    (hl : lookupChat u s.active_chats = none) (now mid : Nat)
    (uname : Option String) (fname : String) (ok : Nat → Bool) :
    handle_user_messages aid now mid u uname fname ok s =
      ({ s with users := update_user_stats now u uname fname s.users },
       [.showMainMenu u]) := by
  simp [handle_user_messages, hu, hl]

theorem handle_user_messages_notin {u aid : Nat} {s : BotState} {e : ChatEntry}
    (hu : u ≠ aid) (hl : lookupChat u s.active_chats = some e)
    (hin : e.in_support = false) (now mid : Nat) (uname : Option String)
    (fname : String) (ok : Nat → Bool) :
    handle_user_messages aid now mid u uname fname ok s =
      ({ s with users := update_user_stats now u uname fname s.users },
       [.showMainMenu u]) := by
  simp [handle_user_messages, hu, hl, hin]

theorem handle_user_messages_support {u aid : Nat} {s : BotState} {e : ChatEntry}
    (hu : u ≠ aid) (hl : lookupChat u s.active_chats = some e)
    (hin : e.in_support = true) (now mid : Nat) (uname : Option String)
    (fname : String) (ok : Nat → Bool) :
    handle_user_messages aid now mid u uname fname ok s =
      handle_user_support_message now mid u uname fname s := by
  simp [handle_user_messages, hu, hl, hin]

theorem handle_user_support_message_first {u : Nat} {s : BotState} {e : ChatEntry}
    (hl : lookupChat u s.active_chats = some e) (hin : e.in_support = true)
    (hw : e.waiting_for_first_message = true) (now mid : Nat)
    (uname : Option String) (fname : String) :
    handle_user_support_message now mid u uname fname s =
      ({ s with users := update_user_stats now u uname fname s.users,
                active_chats := insertChat u
                  { e with message_count := e.message_count + 1,
                           waiting_for_first_message := false,
                           admin_message_ids := e.admin_message_ids ++ [mid] }
                  s.active_chats },
       [.forwardToAdmin u true, .userAck u true]) := by
  simp [handle_user_support_message, hl, hin, hw]

theorem handle_user_support_message_next {u : Nat} {s : BotState} {e : ChatEntry}
    (hl : lookupChat u s.active_chats = some e) (hin : e.in_support = true)
    (hw : e.waiting_for_first_message = false) (now mid : Nat)
    (uname : Option String) (fname : String) :
    handle_user_support_message now mid u uname fname s =
      ({ s with users := update_user_stats now u uname fname s.users,
                active_chats := insertChat u
                  { e with message_count := e.message_count + 1,
                           admin_message_ids := e.admin_message_ids ++ [mid] }
                  s.active_chats },
       [.forwardToAdmin u false, .userAck u false]) := by
  simp [handle_user_support_message, hl, hin, hw]

theorem end_support_handler_some {u : Nat} {s : BotState} {e : ChatEntry}
    (hl : lookupChat u s.active_chats = some e) (hsid : e.session_id ≠ 0)
    (now : Nat) :
    end_support_handler now u s =
      ({ s with
          sessions := end_support_session now e.session_id EndReason.user
            e.message_count s.sessions,
          active_chats := removeChat u s.active_chats },
       [.endSupportAck u, .notifyAdminEnded u]) := by
  simp [end_support_handler, hl, hsid]

theorem end_support_handler_none {u : Nat} {s : BotState}
    (hl : lookupChat u s.active_chats = none) (now : Nat) :
    end_support_handler now u s = (s, [.endSupportAck u, .notifyAdminEnded u]) := by
  simp [end_support_handler, hl]

theorem start_handler_some {u aid : Nat} {s : BotState} {e : ChatEntry}
    (hl : lookupChat u s.active_chats = some e) (hsid : e.session_id ≠ 0)
    (now : Nat) (uname : Option String) (fname : String) :
    start_handler aid now u uname fname s =
      ({ s with
          users := update_user_stats now u uname fname s.users,
          sessions := end_support_session now e.session_id EndReason.user
            e.message_count s.sessions,
          active_chats := removeChat u s.active_chats },
       if u = aid then [.showAdminPanel] else [.showMainMenu u]) := by
  simp [start_handler, hl, hsid]

theorem start_handler_none {u aid : Nat} {s : BotState}
    (hl : lookupChat u s.active_chats = none) (now : Nat) (uname : Option String)
    (fname : String) :
    start_handler aid now u uname fname s =
      ({ s with users := update_user_stats now u uname fname s.users },
       if u = aid then [.showAdminPanel] else [.showMainMenu u]) := by
  simp [start_handler, hl]

theorem close_clean_handler_some {u : Nat} {s : BotState} {e : ChatEntry}
    (hl : lookupChat u s.active_chats = some e) (hsid : e.session_id ≠ 0)
    (now : Nat) (delOk : Nat → Bool) :
    close_clean_handler now u delOk s =
      ({ s with
          sessions := end_support_session now e.session_id EndReason.admin
            e.message_count s.sessions,
          active_chats := removeChat u s.active_chats },
       e.admin_message_ids.map Action.deleteAdminMsg
         ++ [.closeSummary u (e.admin_message_ids.filter delOk).length,
             .notifyUserClosed u]) := by
  simp [close_clean_handler, hl, hsid]

theorem close_clean_handler_none {u : Nat} {s : BotState}
    (hl : lookupChat u s.active_chats = none) (now : Nat) (delOk : Nat → Bool) :
    close_clean_handler now u delOk s =
      ({ s with active_chats := removeChat u s.active_chats },
       [.closeSummary u 0, .notifyUserClosed u]) := by
  simp [close_clean_handler, hl]

theorem end_support_handler_someIf {u : Nat} {s : BotState} {e : ChatEntry}
    (hl : lookupChat u s.active_chats = some e) (now : Nat) :
    end_support_handler now u s =
      ({ s with
          sessions := if e.session_id ≠ 0 then
              end_support_session now e.session_id EndReason.user
                e.message_count s.sessions
            else s.sessions,
          active_chats := removeChat u s.active_chats },
       [.endSupportAck u, .notifyAdminEnded u]) := by
  simp [end_support_handler, hl]

theorem start_handler_someIf {u aid : Nat} {s : BotState} {e : ChatEntry}
    (hl : lookupChat u s.active_chats = some e) (now : Nat) (uname : Option String)
    (fname : String) :
    start_handler aid now u uname fname s =
      ({ s with
          users := update_user_stats now u uname fname s.users,
          sessions := if e.session_id ≠ 0 then
              end_support_session now e.session_id EndReason.user
                e.message_count s.sessions
            else s.sessions,
          active_chats := removeChat u s.active_chats },
       if u = aid then [.showAdminPanel] else [.showMainMenu u]) := by
  simp [start_handler, hl]

theorem close_clean_handler_someIf {u : Nat} {s : BotState} {e : ChatEntry}
    (hl : lookupChat u s.active_chats = some e) (now : Nat) (delOk : Nat → Bool) :
    close_clean_handler now u delOk s =
      ({ s with
          sessions := if e.session_id ≠ 0 then
              end_support_session now e.session_id EndReason.admin
                e.message_count s.sessions
            else s.sessions,
          active_chats := removeChat u s.active_chats },
       e.admin_message_ids.map Action.deleteAdminMsg
         ++ [.closeSummary u (e.admin_message_ids.filter delOk).length,
             .notifyUserClosed u]) := by
  simp [close_clean_handler, hl]

theorem admin_reply_handler_bcast {aid : Nat} {s : BotState} {bt : BroadcastType}
    (hb : s.broadcast_type = some bt) (ok : Nat → Bool) :
    admin_reply_handler aid ok s = handle_broadcast aid ok s := by
  simp [admin_reply_handler, hb]

theorem admin_reply_handler_panel {aid : Nat} {s : BotState}
    (hb : s.broadcast_type = none) (hr : s.admin_replying_to = none)
    (ok : Nat → Bool) :
    admin_reply_handler aid ok s = (s, [.showAdminPanel]) := by
  simp [admin_reply_handler, hb, hr]

theorem admin_reply_handler_sendOk {aid target : Nat} {s : BotState} {ok : Nat → Bool}
    (hb : s.broadcast_type = none) (hr : s.admin_replying_to = some target)
    (hok : ok target = true) :
    admin_reply_handler aid ok s =
      ({ s with admin_replying_to := none },
       [.adminReply target, .replyConfirm target]) := by
  simp [admin_reply_handler, hb, hr, hok]

theorem admin_reply_handler_sendFail {aid target : Nat} {s : BotState} {ok : Nat → Bool}
    (hb : s.broadcast_type = none) (hr : s.admin_replying_to = some target)
    (hok : ok target = false) :
    admin_reply_handler aid ok s = (s, [.replyFailed target]) := by
  simp [admin_reply_handler, hb, hr, hok]

theorem handle_broadcast_none {aid : Nat} {s : BotState}
    (hb : s.broadcast_type = none) (ok : Nat → Bool) :
    handle_broadcast aid ok s = (s, [.noBroadcastType]) := by
  simp [handle_broadcast, hb]

theorem handle_broadcast_emptyTargets {aid : Nat} {s : BotState} {bt : BroadcastType}
    (hb : s.broadcast_type = some bt) (he : resolveTargets bt s = [])
    (ok : Nat → Bool) :
    handle_broadcast aid ok s =
      ({ s with broadcast_type := none }, [.broadcastNoTargets]) := by
  simp [handle_broadcast, hb, he]

theorem handle_broadcast_run {aid : Nat} {s : BotState} {bt : BroadcastType}
    (hb : s.broadcast_type = some bt) (he : resolveTargets bt s ≠ [])
    (ok : Nat → Bool) :
    handle_broadcast aid ok s =
      ({ s with broadcast_type := none },
       .broadcastStatus (resolveTargets bt s).length
         :: (broadcastLoop aid ok (resolveTargets bt s)).2.2
         ++ [.broadcastSummary (resolveTargets bt s).length
              (broadcastLoop aid ok (resolveTargets bt s)).1
              (broadcastLoop aid ok (resolveTargets bt s)).2.1]) := by
  simp [handle_broadcast, hb, List.isEmpty_iff, he]

/-- Operator text handling never touches the tables, the id counter or the
chat entries. -/
theorem admin_reply_handler_frame (aid : Nat) (ok : Nat → Bool) (s : BotState) :
    (admin_reply_handler aid ok s).1.users = s.users ∧
    (admin_reply_handler aid ok s).1.sessions = s.sessions ∧
    (admin_reply_handler aid ok s).1.nextSid = s.nextSid ∧
    (admin_reply_handler aid ok s).1.active_chats = s.active_chats := by
  rcases hb : s.broadcast_type with _ | bt
  · rcases hr : s.admin_replying_to with _ | target
    · rw [admin_reply_handler_panel hb hr]
      exact ⟨rfl, rfl, rfl, rfl⟩
    · by_cases hok : ok target = true
      · rw [admin_reply_handler_sendOk hb hr hok]
        exact ⟨rfl, rfl, rfl, rfl⟩
      · rw [admin_reply_handler_sendFail hb hr (by simpa using hok)]
        exact ⟨rfl, rfl, rfl, rfl⟩
  · rw [admin_reply_handler_bcast hb]
    by_cases he : resolveTargets bt s = []
    · rw [handle_broadcast_emptyTargets hb he]
      exact ⟨rfl, rfl, rfl, rfl⟩
    · rw [handle_broadcast_run hb he]
      exact ⟨rfl, rfl, rfl, rfl⟩

/-! ### `PosInv` preservation -/

theorem posInv_insertSame {s : BotState} {u : Nat} {e e2 : ChatEntry} (h : PosInv s)
    (hl : lookupChat u s.active_chats = some e) (hsid : e2.session_id = e.session_id)
    (users1 : List UserRow) :
    PosInv { s with users := users1, active_chats := insertChat u e2 s.active_chats } := by
  obtain ⟨hn, he⟩ := h
  refine ⟨hn, ?_⟩
  intro w e3 hw
  by_cases hwu : w = u
  · subst hwu
    rw [lookupChat_insert_self] at hw
    simp only [Option.some.injEq] at hw
    rw [← hw, hsid]
    exact he w e hl
  · rw [lookupChat_insert_ne hwu] at hw
    exact he w e3 hw

theorem posInv_remove {s : BotState} (h : PosInv s) (u : Nat) (users1 : List UserRow)
    (sess1 : List SupportSession) :
    PosInv { s with users := users1, sessions := sess1,
                    active_chats := removeChat u s.active_chats } := by
  obtain ⟨hn, he⟩ := h
  exact ⟨hn, fun w e hw => he w e (lookupChat_remove_some hw)⟩

theorem posInv_press {s : BotState} (h : PosInv s) (now u : Nat)
    (uname : Option String) (fname : String) :
    PosInv (start_support_chat now u uname fname s).1 := by
  obtain ⟨hn, he⟩ := h
  rw [start_support_chat_eq]
  refine ⟨Nat.succ_pos _, ?_⟩
  intro w e hw
  by_cases hwu : w = u
  · subst hwu
    rw [lookupChat_insert_self] at hw
    simp only [Option.some.injEq] at hw
    rw [← hw]
    exact hn
  · rw [lookupChat_insert_ne hwu] at hw
    exact he w e hw

/-- Every transition preserves positivity of the tracked session ids. -/
theorem posInv_step (aid now mid : Nat) (s : BotState) (ev : Event) (h : PosInv s) :
    PosInv (step aid now mid s ev).1 := by
  cases ev with
  | textMsg u uname fname ok =>
    show PosInv (handle_user_messages aid now mid u uname fname ok s).1
    by_cases hu : u = aid
    · rw [handle_user_messages_admin hu]
      obtain ⟨_, _, h3, h4⟩ := admin_reply_handler_frame aid ok s
      exact posInv_of_eq h h3 h4
    · rcases hl : lookupChat u s.active_chats with _ | e0
      · rw [handle_user_messages_idle hu hl]
        exact posInv_of_eq h rfl rfl
      · by_cases hin : e0.in_support = true
        · rw [handle_user_messages_support hu hl hin]
          by_cases hw : e0.waiting_for_first_message = true
          · rw [handle_user_support_message_first hl hin hw]
            refine posInv_insertSame h hl ?_ _
            rfl
          · rw [handle_user_support_message_next hl hin (by simpa using hw)]
            refine posInv_insertSame h hl ?_ _
            rfl
        · rw [handle_user_messages_notin hu hl (by simpa using hin)]
          exact posInv_of_eq h rfl rfl
  | helpSupport u uname fname =>
    exact posInv_press h now u uname fname
  | endSupportBtn u =>
    show PosInv (end_support_handler now u s).1
    rcases hl : lookupChat u s.active_chats with _ | e0
    · rw [end_support_handler_none hl]
      exact h
    · rw [end_support_handler_some hl (Nat.pos_iff_ne_zero.mp (h.entryPos u e0 hl))]
      exact posInv_remove h u s.users _
  | startCmd u uname fname =>
    show PosInv (start_handler aid now u uname fname s).1
    rcases hl : lookupChat u s.active_chats with _ | e0
    · rw [start_handler_none hl]
      exact posInv_of_eq h rfl rfl
    · rw [start_handler_some hl (Nat.pos_iff_ne_zero.mp (h.entryPos u e0 hl))]
      exact posInv_remove h u _ _
  | replyBtn t => exact posInv_of_eq h rfl rfl
  | closeCleanBtn t delOk =>
    show PosInv (close_clean_handler now t delOk s).1
    rcases hl : lookupChat t s.active_chats with _ | e0
    · rw [close_clean_handler_none hl]
      exact posInv_remove h t s.users s.sessions
    · rw [close_clean_handler_some hl (Nat.pos_iff_ne_zero.mp (h.entryPos t e0 hl))]
      exact posInv_remove h t _ _
  | blockBtn t =>
    show PosInv (block_handler t s).1
    exact posInv_remove h t _ _
  | unblockBtn t => exact posInv_of_eq h rfl rfl
  | broadcastAllBtn => exact posInv_of_eq h rfl rfl
  | broadcastActiveBtn => exact posInv_of_eq h rfl rfl
  | shutdown => exact posInv_of_eq h rfl rfl

/-! ### `SessInv` preservation -/

/-- Every non-shutdown transition that respects the guards preserves the
session/store correspondence. -/
theorem sessInv_step (aid now mid : Nat) (s : BotState) (ev : Event)
    (hp : PosInv s) (h : SessInv s) (hg : Guard s ev) (hne : ev ≠ Event.shutdown) :
    SessInv (step aid now mid s ev).1 := by
  cases ev with
  | textMsg u uname fname ok =>
    show SessInv (handle_user_messages aid now mid u uname fname ok s).1
    by_cases hu : u = aid
    · rw [handle_user_messages_admin hu]
      obtain ⟨_, h2, h3, h4⟩ := admin_reply_handler_frame aid ok s
      exact sessInv_of_eq h h2 h3 h4
    · rcases hl : lookupChat u s.active_chats with _ | e0
      · rw [handle_user_messages_idle hu hl]
        exact sessInv_of_eq h rfl rfl rfl
      · by_cases hin : e0.in_support = true
        · rw [handle_user_messages_support hu hl hin]
          by_cases hw : e0.waiting_for_first_message = true
          · rw [handle_user_support_message_first hl hin hw]
            refine sessInv_entryUpdate h hl ?_ _
            rfl
          · rw [handle_user_support_message_next hl hin (by simpa using hw)]
            refine sessInv_entryUpdate h hl ?_ _
            rfl
        · rw [handle_user_messages_notin hu hl (by simpa using hin)]
          exact sessInv_of_eq h rfl rfl rfl
  | helpSupport u uname fname =>
    exact sessInv_press h hg now uname fname
  | endSupportBtn u =>
    show SessInv (end_support_handler now u s).1
    rcases hl : lookupChat u s.active_chats with _ | e0
    · rw [end_support_handler_none hl]
      exact h
    · rw [end_support_handler_some hl (Nat.pos_iff_ne_zero.mp (hp.entryPos u e0 hl))]
      exact sessInv_closeRemove h hl now e0.message_count EndReason.user
  | startCmd u uname fname =>
    show SessInv (start_handler aid now u uname fname s).1
    rcases hl : lookupChat u s.active_chats with _ | e0
    · rw [start_handler_none hl]
      exact sessInv_of_eq h rfl rfl rfl
    · rw [start_handler_some hl (Nat.pos_iff_ne_zero.mp (hp.entryPos u e0 hl))]
      exact sessInv_of_eq
        (sessInv_closeRemove h hl now e0.message_count EndReason.user) rfl rfl rfl
  | replyBtn t => exact sessInv_of_eq h rfl rfl rfl
  | closeCleanBtn t delOk =>
    show SessInv (close_clean_handler now t delOk s).1
    rcases hl : lookupChat t s.active_chats with _ | e0
    · rw [close_clean_handler_none hl]
      exact sessInv_removeIdle h hl
    · rw [close_clean_handler_some hl (Nat.pos_iff_ne_zero.mp (hp.entryPos t e0 hl))]
      exact sessInv_closeRemove h hl now e0.message_count EndReason.admin
  | blockBtn t =>
    show SessInv (block_handler t s).1
    exact sessInv_of_eq (sessInv_removeIdle h hg) rfl rfl rfl
  | unblockBtn t => exact sessInv_of_eq h rfl rfl rfl
  | broadcastAllBtn => exact sessInv_of_eq h rfl rfl rfl
  | broadcastActiveBtn => exact sessInv_of_eq h rfl rfl rfl
  | shutdown => exact absurd rfl hne

theorem posInv_initial : PosInv initialState := by
  refine ⟨Nat.one_pos, ?_⟩
  intro u e hw
  simp [initialState, lookupChat] at hw

theorem sessInv_initial : SessInv initialState := by
  refine ⟨?_, ?_, ?_, ?_⟩
  · intro sess hs
    simp [initialState] at hs
  · simp [initialState]
  · intro sess hs
    simp [initialState] at hs
  · intro u e hw
    simp [initialState, lookupChat] at hw

/-! ### Broadcast loop facts -/

theorem broadcastLoop_spec (aid : Nat) (ok : Nat → Bool) (l : List Nat)
    (hadm : aid ∉ l) :
    broadcastLoop aid ok l =
      (l.countP ok, l.countP (fun i => !ok i), l.map Action.broadcastSend) := by
  induction l with
  | nil => simp [broadcastLoop]
  | cons a rest ih =>
    rw [List.mem_cons, not_or] at hadm
    have hne : ¬ a = aid := fun hq => hadm.1 hq.symm
    rw [show broadcastLoop aid ok (a :: rest)
        = if a = aid then broadcastLoop aid ok rest
          else
            if ok a then
              ((broadcastLoop aid ok rest).1 + 1, (broadcastLoop aid ok rest).2.1,
               .broadcastSend a :: (broadcastLoop aid ok rest).2.2)
            else
              ((broadcastLoop aid ok rest).1, (broadcastLoop aid ok rest).2.1 + 1,
               .broadcastSend a :: (broadcastLoop aid ok rest).2.2) from rfl]
    rw [if_neg hne, ih hadm.2]
    by_cases hok : ok a = true
    · simp [hok, List.countP_cons]
    · have hok2 : ok a = false := by simpa using hok
      simp [hok2, List.countP_cons]

theorem broadcastLoop_actions (aid : Nat) (ok : Nat → Bool) (l : List Nat) :
    ∀ a ∈ (broadcastLoop aid ok l).2.2, ∃ t, a = Action.broadcastSend t := by
  induction l with
  | nil => simp [broadcastLoop]
  | cons b rest ih =>
    intro a ha
    rw [show broadcastLoop aid ok (b :: rest)
        = if b = aid then broadcastLoop aid ok rest
          else
            if ok b then
              ((broadcastLoop aid ok rest).1 + 1, (broadcastLoop aid ok rest).2.1,
               .broadcastSend b :: (broadcastLoop aid ok rest).2.2)
            else
              ((broadcastLoop aid ok rest).1, (broadcastLoop aid ok rest).2.1 + 1,
               .broadcastSend b :: (broadcastLoop aid ok rest).2.2) from rfl] at ha
    by_cases hb : b = aid
    · rw [if_pos hb] at ha
      exact ih a ha
    · rw [if_neg hb] at ha
      by_cases hok : ok b = true
      · rw [if_pos hok] at ha
        rcases List.mem_cons.mp ha with rfl | hmem
        · exact ⟨b, rfl⟩
        · exact ih a hmem
      · rw [if_neg hok] at ha
        rcases List.mem_cons.mp ha with rfl | hmem
        · exact ⟨b, rfl⟩
        · exact ih a hmem

theorem countP_ok_add_not (ok : Nat → Bool) (l : List Nat) :
    l.countP ok + l.countP (fun i => !ok i) = l.length := by
  induction l with
  | nil => simp
  | cons a rest ih =>
    by_cases h : ok a = true <;> simp [List.countP_cons, h] <;> omega

/-- Project the recipient out of a broadcast send attempt. -/
def sendTarget : Action → Option Nat
  | .broadcastSend t => some t
  | _ => none

theorem sendActions_filterMap (l : List Nat) :
    (l.map Action.broadcastSend).filterMap sendTarget = l := by
  induction l with
  | nil => rfl
  | cons a rest ih => simp [List.filterMap_cons, sendTarget, ih]

theorem filterMap_sendTarget_map (l : List Nat) :
    List.filterMap (sendTarget ∘ Action.broadcastSend) l = l := by
  induction l with
  | nil => rfl
  | cons a rest ih => simp [List.filterMap_cons, sendTarget, Function.comp, ih]

theorem countP_eq_one_of_nodup {l : List Nat} (hnd : l.Nodup) {t : Nat} (ht : t ∈ l) :
    l.countP (fun x => decide (x = t)) = 1 := by
  induction l with
  | nil => cases ht
  | cons a rest ih =>
    rw [List.nodup_cons] at hnd
    by_cases hat : a = t
    · subst hat
      rw [List.countP_cons_of_pos _ _ (by simp)]
      have hz : rest.countP (fun x => decide (x = a)) = 0 := by
        rw [List.countP_eq_zero]
        intro b hb hpb
        rw [decide_eq_true_eq] at hpb
        exact hnd.1 (hpb ▸ hb)
      omega
    · have hmem : t ∈ rest := by
        rcases List.mem_cons.mp ht with h | h
        · exact absurd h.symm hat
        · exact h
      rw [List.countP_cons_of_neg _ _ (by simp [hat])]
      exact ih hnd.2 hmem

theorem countP_send_map (t : Nat) (l : List Nat) :
    (l.map Action.broadcastSend).countP (fun a => decide (a = Action.broadcastSend t))
      = l.countP (fun x => decide (x = t)) := by
  induction l with
  | nil => rfl
  | cons a rest ih => simp [List.countP_cons, ih]

/-! ### `users` table facts -/

theorem mem_get_all_user_ids {u : Nat} {users : List UserRow} :
    u ∈ get_all_user_ids users ↔
      ∃ r, r ∈ users ∧ r.is_active = true ∧ r.user_id = u := by
  simp only [get_all_user_ids, List.mem_map, List.mem_filter]
  constructor
  · rintro ⟨r, ⟨hr, hact⟩, hru⟩
    exact ⟨r, hr, hact, hru⟩
  · rintro ⟨r, hr, hact, hru⟩
    exact ⟨r, ⟨hr, hact⟩, hru⟩

theorem notActive_update_other {u v now : Nat} {uname : Option String} {fname : String}
    {users : List UserRow} (huv : v ≠ u) (h : u ∉ get_all_user_ids users) :
    u ∉ get_all_user_ids (update_user_stats now v uname fname users) := by
  rw [mem_get_all_user_ids] at h ⊢
  rintro ⟨r, hr, hact, hru⟩
  apply h
  simp only [update_user_stats, List.mem_append, List.mem_filter,
    List.mem_singleton] at hr
  rcases hr with ⟨hr, _⟩ | rfl
  · exact ⟨r, hr, hact, hru⟩
  · exact absurd hru huv

theorem notActive_block {u v : Nat} {users : List UserRow}
    (h : u ∉ get_all_user_ids users) :
    u ∉ get_all_user_ids (blockUser v users) := by
  rw [mem_get_all_user_ids] at h ⊢
  rintro ⟨r, hr, hact, hru⟩
  simp only [blockUser, List.mem_map] at hr
  obtain ⟨r0, hr0, rfl⟩ := hr
  by_cases hv : r0.user_id = v
  · rw [if_pos hv] at hact
    simp at hact
  · rw [if_neg hv] at hact hru
    exact h ⟨r0, hr0, hact, hru⟩

theorem notActive_unblock_other {u v : Nat} {users : List UserRow} (huv : v ≠ u)
    (h : u ∉ get_all_user_ids users) :
    u ∉ get_all_user_ids (unblockUser v users) := by
  rw [mem_get_all_user_ids] at h ⊢
  rintro ⟨r, hr, hact, hru⟩
  simp only [unblockUser, List.mem_map] at hr
  obtain ⟨r0, hr0, rfl⟩ := hr
  by_cases hv : r0.user_id = v
  · rw [if_pos hv] at hru
    exact huv (by rw [← hv]; exact hru)
  · rw [if_neg hv] at hact hru
    exact h ⟨r0, hr0, hact, hru⟩

theorem notActive_blockUser_self {u : Nat} (users : List UserRow) :
    u ∉ get_all_user_ids (blockUser u users) := by
  rw [mem_get_all_user_ids]
  rintro ⟨r, hr, hact, hru⟩
  simp only [blockUser, List.mem_map] at hr
  obtain ⟨r0, hr0, rfl⟩ := hr
  by_cases hv : r0.user_id = u
  · rw [if_pos hv] at hact
    simp at hact
  · rw [if_neg hv] at hru
    exact hv hru

/-- Events whose handler re-activates user `u` in the `users` table: a
text message or `/start` from `u` (stats upsert sets `is_active = 1`), or
an explicit unblock of `u`. -/
def Reactivates (u : Nat) : Event → Prop
  | .textMsg v _ _ _ => v = u
  | .startCmd v _ _ => v = u
  | .unblockBtn v => v = u
  | _ => False

/-- A blocked (inactive) user stays out of the `activeOnly` listing under
any event that does not re-activate them. -/
theorem notActive_step {aid now mid u : Nat} {s : BotState} {ev : Event}
    (h : u ∉ get_all_user_ids s.users) (hev : ¬ Reactivates u ev) :
    u ∉ get_all_user_ids (step aid now mid s ev).1.users := by
  cases ev with
  | textMsg v uname fname ok =>
    have hvu : v ≠ u := hev
    show u ∉ get_all_user_ids (handle_user_messages aid now mid v uname fname ok s).1.users
    by_cases hu : v = aid
    · rw [handle_user_messages_admin hu]
      obtain ⟨h1, _, _, _⟩ := admin_reply_handler_frame aid ok s
      rw [h1]
      exact h
    · rcases hl : lookupChat v s.active_chats with _ | e0
      · rw [handle_user_messages_idle hu hl]
        exact notActive_update_other hvu h
      · by_cases hin : e0.in_support = true
        · rw [handle_user_messages_support hu hl hin]
          by_cases hw : e0.waiting_for_first_message = true
          · rw [handle_user_support_message_first hl hin hw]
            exact notActive_update_other hvu h
          · rw [handle_user_support_message_next hl hin (by simpa using hw)]
            exact notActive_update_other hvu h
        · rw [handle_user_messages_notin hu hl (by simpa using hin)]
          exact notActive_update_other hvu h
  | helpSupport v uname fname =>
    show u ∉ get_all_user_ids (start_support_chat now v uname fname s).1.users
    rw [start_support_chat_eq]
    exact h
  | endSupportBtn v =>
    show u ∉ get_all_user_ids (end_support_handler now v s).1.users
    rcases hl : lookupChat v s.active_chats with _ | e0
    · rw [end_support_handler_none hl]
      exact h
    · rw [end_support_handler_someIf hl]
      exact h
  | startCmd v uname fname =>
    have hvu : v ≠ u := hev
    show u ∉ get_all_user_ids (start_handler aid now v uname fname s).1.users
    rcases hl : lookupChat v s.active_chats with _ | e0
    · rw [start_handler_none hl]
      exact notActive_update_other hvu h
    · rw [start_handler_someIf hl]
      exact notActive_update_other hvu h
  | replyBtn t => exact h
  | closeCleanBtn v delOk =>
    show u ∉ get_all_user_ids (close_clean_handler now v delOk s).1.users
    rcases hl : lookupChat v s.active_chats with _ | e0
    · rw [close_clean_handler_none hl]
      exact h
    · rw [close_clean_handler_someIf hl]
      exact h
  | blockBtn v => exact notActive_block h
  | unblockBtn v =>
    have hvu : v ≠ u := hev
    exact notActive_unblock_other hvu h
  | broadcastAllBtn => exact h
  | broadcastActiveBtn => exact h
  | shutdown => exact h

/-! ### Demonstration states -/

def demoEntry : ChatEntry := freshEntry (some "u") "U" 1

def demoState : BotState :=
  { initialState with sessions := [freshSession 1 5 0], nextSid := 2,
                      active_chats := [(5, demoEntry)] }

theorem posInv_demoState : PosInv demoState := by
  refine ⟨by decide, ?_⟩
  intro w e hw
  simp only [demoState, initialState, lookupChat] at hw
  by_cases h5 : (5 : Nat) = w
  · rw [if_pos h5] at hw
    simp only [Option.some.injEq] at hw
    rw [← hw]
    decide
  · rw [if_neg h5] at hw
    cases hw

theorem sessInv_demoState : SessInv demoState := by
  refine ⟨?_, ?_, ?_, ?_⟩
  · intro sess hs
    simp only [demoState, initialState, List.mem_singleton] at hs
    rw [hs]
    decide
  · decide
  · intro sess hs _
    simp only [demoState, initialState, List.mem_singleton] at hs
    refine ⟨demoEntry, ?_, ?_⟩
    · rw [hs]
      rfl
    · rw [hs]
      rfl
  · intro u e hw
    simp only [demoState, initialState, lookupChat] at hw
    by_cases h5 : (5 : Nat) = u
    · rw [if_pos h5] at hw
      simp only [Option.some.injEq] at hw
      subst h5
      refine ⟨freshSession 1 5 0, by decide, rfl, ?_, rfl⟩
      rw [← hw]
      rfl
    · rw [if_neg h5] at hw
      cases hw

/-- One press of the support entry point by user 5 on a fresh store. -/
def pressOnce : BotState :=
  (step 1 0 9 initialState (.helpSupport 5 (some "u") "U")).1

/-- A second press of the entry point by the same user. -/
def pressTwice : BotState :=
  (step 1 0 9 pressOnce (.helpSupport 5 (some "u") "U")).1

/-- Blocking user 5 while they are in support. -/
def blockedAfterPress : BotState :=
  (step 1 0 9 pressOnce (.blockBtn 5)).1

/-! ### The claims -/

/-- Claim C1 (amended): provided the support entry point is only invoked
while the user is `IDLE` and only `IDLE` users are blocked (the `Guard`),
every user owns at most one `active` SupportSession row before and after
every Session Router transition, shutdown included.  As frozen the claim
is false — a repeated press of the entry point opens a second `active`
row (`claim1_counterexample`). -/
theorem claim1_at_most_one_active (aid now mid : Nat) (s : BotState) (ev : Event)
    (hp : PosInv s) (h : SessInv s) (hg : Guard s ev) :
    AtMostOneActive s ∧ AtMostOneActive (step aid now mid s ev).1 := by
  refine ⟨atMostOneActive_of_sessInv h, ?_⟩
  by_cases hne : ev = Event.shutdown
  · subst hne
    intro u
    show countActiveFor u (cleanup_database now s.sessions) ≤ 1
    rw [countActiveFor_cleanup]
    omega
  · exact atMostOneActive_of_sessInv (sessInv_step aid now mid s ev hp h hg hne)

/-- Claim C1, refuted as frozen: pressing the support entry point twice
from a fresh state leaves user 5 with two `active` SupportSession rows. -/
theorem claim1_counterexample : ¬ (countActiveFor 5 pressTwice.sessions ≤ 1) := by
  decide

theorem claim1_witness :
    countActiveFor 5 initialState.sessions ≤ 1 ∧
    countActiveFor 5 ((step 1 0 9 initialState (.helpSupport 5 (some "u") "U")).1.sessions) ≤ 1 :=
  ⟨(claim1_at_most_one_active 1 0 9 initialState (.helpSupport 5 (some "u") "U")
      posInv_initial sessInv_initial rfl).1 5,
   (claim1_at_most_one_active 1 0 9 initialState (.helpSupport 5 (some "u") "U")
      posInv_initial sessInv_initial rfl).2 5⟩

/-- Claim C2 (amended): between process start and shutdown, and provided
the entry point is only invoked from `IDLE` and only `IDLE` users are
blocked (the `Guard`), an ActiveChatEntry for a user exists iff that user
owns an `active` SupportSession row — before and after every transition.
As frozen the claim is false — blocking an in-support user discards the
entry but leaves the session row `active` (`claim2_counterexample`). -/
theorem claim2_entry_iff_active (aid now mid : Nat) (s : BotState) (ev : Event)
    (hp : PosInv s) (h : SessInv s) (hg : Guard s ev) (hne : ev ≠ Event.shutdown) :
    (∀ u, (lookupChat u s.active_chats).isSome = true ↔
        0 < countActiveFor u s.sessions) ∧
    (∀ u, (lookupChat u (step aid now mid s ev).1.active_chats).isSome = true ↔
        0 < countActiveFor u (step aid now mid s ev).1.sessions) := by
  have key : ∀ t : BotState, SessInv t → ∀ u,
      (lookupChat u t.active_chats).isSome = true ↔ 0 < countActiveFor u t.sessions := by
    intro t ht u
    constructor
    · intro hs
      rcases hl : lookupChat u t.active_chats with _ | e
      · rw [hl] at hs
        simp at hs
      · obtain ⟨r, hr, hru, _, hra⟩ := ht.activeOfEntry u e hl
        simp only [countActiveFor]
        rw [List.countP_pos_iff]
        exact ⟨r, hr, by simp [hru, hra]⟩
    · intro hpos
      simp only [countActiveFor] at hpos
      rw [List.countP_pos_iff] at hpos
      obtain ⟨sess, hs2, hp2⟩ := hpos
      rw [decide_eq_true_eq] at hp2
      obtain ⟨e, he, _⟩ := ht.trackedOfActive sess hs2 hp2.2
      rw [hp2.1] at he
      simp [he]
  exact ⟨key s h, key _ (sessInv_step aid now mid s ev hp h hg hne)⟩

/-- Claim C2, refuted as frozen: opening support for user 5 and then
blocking user 5 leaves no entry but one `active` row. -/
theorem claim2_counterexample :
    ¬ ((lookupChat 5 blockedAfterPress.active_chats).isSome = true ↔
        0 < countActiveFor 5 blockedAfterPress.sessions) := by
  decide

theorem claim2_witness :
    ((lookupChat 5 initialState.active_chats).isSome = true ↔
        0 < countActiveFor 5 initialState.sessions) ∧
    ((lookupChat 5 (step 1 0 9 initialState (.replyBtn 3)).1.active_chats).isSome = true ↔
        0 < countActiveFor 5 (step 1 0 9 initialState (.replyBtn 3)).1.sessions) :=
  ⟨(claim2_entry_iff_active 1 0 9 initialState (.replyBtn 3) posInv_initial
      sessInv_initial trivial (fun hq => Event.noConfusion hq)).1 5,
   (claim2_entry_iff_active 1 0 9 initialState (.replyBtn 3) posInv_initial
      sessInv_initial trivial (fun hq => Event.noConfusion hq)).2 5⟩

/-- Claim C4 (amended): pressing the support entry point while already
`AWAITING_FIRST_MESSAGE` or `IN_SUPPORT` re-shows the same confirmation
but is not idempotent — it appends a new `active` session row (one more
than before for this user), and replaces the user's entry with a fresh one
(message count 0, empty operator message-id list, the new session id,
different from the entry's previous session id).  As frozen the claim is
false (`claim4_counterexample`). -/
theorem claim4_repress_not_idempotent (now u : Nat) (uname : Option String)
    (fname : String) (s : BotState) (e : ChatEntry) (h : SessInv s)
    (hl : lookupChat u s.active_chats = some e) :
    (start_support_chat now u uname fname s).2 = [Action.supportConfirm u] ∧
    (start_support_chat now u uname fname s).1.sessions
        = s.sessions ++ [freshSession s.nextSid u now] ∧
    countActiveFor u (start_support_chat now u uname fname s).1.sessions
        = countActiveFor u s.sessions + 1 ∧
    lookupChat u (start_support_chat now u uname fname s).1.active_chats
        = some (freshEntry uname fname s.nextSid) ∧
    s.nextSid ≠ e.session_id := by
  rw [start_support_chat_eq]
  refine ⟨rfl, rfl, ?_, lookupChat_insert_self u _ s.active_chats, ?_⟩
  · show countActiveFor u (s.sessions ++ [freshSession s.nextSid u now])
        = countActiveFor u s.sessions + 1
    simp only [countActiveFor]
    rw [List.countP_append]
    simp [freshSession]
  · intro hq
    obtain ⟨r, hr, _, hrs, _⟩ := h.activeOfEntry u e hl
    have hlt := h.fresh r hr
    rw [hrs, ← hq] at hlt
    exact Nat.lt_irrefl _ hlt

/-- Claim C4, refuted as frozen: the second press opens a second session
row and rebinds the entry to a new session id. -/
theorem claim4_counterexample :
    pressTwice.sessions.length = 2 ∧
    (lookupChat 5 pressTwice.active_chats).map (fun e => e.session_id)
      ≠ (lookupChat 5 pressOnce.active_chats).map (fun e => e.session_id) := by
  decide

theorem claim4_witness :
    (start_support_chat 7 5 (some "u") "U" demoState).2 = [Action.supportConfirm 5] ∧
    (start_support_chat 7 5 (some "u") "U" demoState).1.sessions
        = demoState.sessions ++ [freshSession demoState.nextSid 5 7] ∧
    countActiveFor 5 (start_support_chat 7 5 (some "u") "U" demoState).1.sessions
        = countActiveFor 5 demoState.sessions + 1 ∧
    lookupChat 5 (start_support_chat 7 5 (some "u") "U" demoState).1.active_chats
        = some (freshEntry (some "u") "U" demoState.nextSid) ∧
    demoState.nextSid ≠ demoEntry.session_id :=
  claim4_repress_not_idempotent 7 5 (some "u") "U" demoState demoEntry
    sessInv_demoState rfl

/-- Claim C10: for every user who has an ActiveChatEntry, the `/start`
command closes the entry's session row with reason `user` and the entry's
recorded message count, discards the entry (back to `IDLE`). -/
theorem claim10_start_closes_session (aid now mid u : Nat) (uname : Option String)
    (fname : String) (s : BotState) (e : ChatEntry)
    (hp : PosInv s) (hl : lookupChat u s.active_chats = some e) :
    lookupChat u (step aid now mid s (.startCmd u uname fname)).1.active_chats = none ∧
    (step aid now mid s (.startCmd u uname fname)).1.sessions
      = end_support_session now e.session_id EndReason.user e.message_count s.sessions ∧
    ∀ sess ∈ s.sessions, sess.session_id = e.session_id →
      { sess with
          ended_at := some now, ended_by := some EndReason.user,
          message_count := e.message_count, status := SessionStatus.closed }
        ∈ (step aid now mid s (.startCmd u uname fname)).1.sessions := by
  have hsid := Nat.pos_iff_ne_zero.mp (hp.entryPos u e hl)
  have hstep : step aid now mid s (.startCmd u uname fname)
      = start_handler aid now u uname fname s := rfl
  rw [hstep, start_handler_some hl hsid]
  refine ⟨lookupChat_remove_self u _, rfl, ?_⟩
  intro sess hs hq
  simp only [end_support_session, List.mem_map]
  exact ⟨sess, hs, by rw [if_pos hq]⟩

theorem claim10_witness :
    lookupChat 5 (step 1 3 9 demoState (.startCmd 5 (some "u") "U")).1.active_chats = none ∧
    (step 1 3 9 demoState (.startCmd 5 (some "u") "U")).1.sessions
      = end_support_session 3 demoEntry.session_id EndReason.user
          demoEntry.message_count demoState.sessions ∧
    { freshSession 1 5 0 with
        ended_at := some 3, ended_by := some EndReason.user,
        message_count := demoEntry.message_count, status := SessionStatus.closed }
      ∈ (step 1 3 9 demoState (.startCmd 5 (some "u") "U")).1.sessions :=
  ⟨(claim10_start_closes_session 1 3 9 5 (some "u") "U" demoState demoEntry
      posInv_demoState rfl).1,
   (claim10_start_closes_session 1 3 9 5 (some "u") "U" demoState demoEntry
      posInv_demoState rfl).2.1,
   (claim10_start_closes_session 1 3 9 5 (some "u") "U" demoState demoEntry
      posInv_demoState rfl).2.2 (freshSession 1 5 0) (by decide) (by decide)⟩

/-- Operator 1 has a ReplyTarget (user 7) and broadcast mode set at once. -/
def c3State : BotState :=
  { initialState with
      users := [{ user_id := 7, username := none, full_name := "B", first_seen := 0,
                  last_seen := 0, total_messages := 1, is_active := true }],
      admin_replying_to := some 7, broadcast_type := some .all }

/-- Claim C3 (amended): when both broadcast-composition mode and a
ReplyTarget are set and the operator sends plain text, broadcast mode
wins — the text goes down the broadcast path, no operator reply is
relayed to any user, broadcast mode is cleared and the ReplyTarget is
left set.  As frozen (reply mode wins) the claim is false: the source
checks broadcast mode first (`claim3_counterexample`). -/
theorem claim3_broadcast_wins (aid now mid : Nat) (uname : Option String)
    (fname : String) (ok : Nat → Bool) (s : BotState) (bt : BroadcastType)
    (hb : s.broadcast_type = some bt) :
    (∀ t, Action.adminReply t ∉ (step aid now mid s (.textMsg aid uname fname ok)).2) ∧
    (step aid now mid s (.textMsg aid uname fname ok)).1.broadcast_type = none ∧
    (step aid now mid s (.textMsg aid uname fname ok)).1.admin_replying_to
      = s.admin_replying_to := by
  have hstep : step aid now mid s (.textMsg aid uname fname ok)
      = handle_user_messages aid now mid aid uname fname ok s := rfl
  rw [hstep, handle_user_messages_admin rfl, admin_reply_handler_bcast hb]
  by_cases he : resolveTargets bt s = []
  · rw [handle_broadcast_emptyTargets hb he]
    refine ⟨?_, rfl, rfl⟩
    intro t ht
    simp at ht
  · rw [handle_broadcast_run hb he]
    refine ⟨?_, rfl, rfl⟩
    intro t ht
    simp only [List.mem_cons, List.mem_append, List.mem_singleton] at ht
    rcases ht with (h1 | h2) | h3 | h4
    · exact Action.noConfusion h1
    · obtain ⟨t2, ht2⟩ := broadcastLoop_actions aid ok (resolveTargets bt s)
        (Action.adminReply t) h2
      exact Action.noConfusion ht2
    · exact Action.noConfusion h3
    · cases h4

/-- Claim C3, refuted as frozen: with ReplyTarget = 7 and broadcast mode
both set, the operator's text is broadcast and no reply is relayed to 7. -/
theorem claim3_counterexample :
    Action.adminReply 7 ∉ (step 1 0 9 c3State (.textMsg 1 none "adm" (fun _ => true))).2 ∧
    Action.broadcastSend 7 ∈ (step 1 0 9 c3State (.textMsg 1 none "adm" (fun _ => true))).2 := by
  decide

theorem claim3_witness :
    Action.adminReply 7 ∉ (step 1 0 9 c3State (.textMsg 1 none "adm" (fun _ => true))).2 ∧
    (step 1 0 9 c3State (.textMsg 1 none "adm" (fun _ => true))).1.broadcast_type = none ∧
    (step 1 0 9 c3State (.textMsg 1 none "adm" (fun _ => true))).1.admin_replying_to
      = c3State.admin_replying_to :=
  ⟨(claim3_broadcast_wins 1 0 9 none "adm" (fun _ => true) c3State BroadcastType.all rfl).1 7,
   (claim3_broadcast_wins 1 0 9 none "adm" (fun _ => true) c3State BroadcastType.all rfl).2.1,
   (claim3_broadcast_wins 1 0 9 none "adm" (fun _ => true) c3State BroadcastType.all rfl).2.2⟩

/-- Claim C5: a non-operator user with an in-support entry whose
`waiting_for_first_message` flag is set produces, on their next text,
exactly one operator-directed forward with the new-request framing and
none without it, and the flag flips to false (message count up by one);
with the flag already cleared the forward carries no new-request framing. -/
theorem claim5_first_message_framing (aid now mid u : Nat) (uname : Option String)
    (fname : String) (ok : Nat → Bool) (s : BotState) (e : ChatEntry)
    (hu : u ≠ aid) (hl : lookupChat u s.active_chats = some e)
    (hin : e.in_support = true) :
    (step aid now mid s (.textMsg u uname fname ok)).2.countP
        (fun a => decide (a = Action.forwardToAdmin u true))
      = (if e.waiting_for_first_message then 1 else 0) ∧
    (step aid now mid s (.textMsg u uname fname ok)).2.countP
        (fun a => decide (a = Action.forwardToAdmin u false))
      = (if e.waiting_for_first_message then 0 else 1) ∧
    ∃ e2, lookupChat u (step aid now mid s (.textMsg u uname fname ok)).1.active_chats
        = some e2 ∧ e2.waiting_for_first_message = false ∧
      e2.message_count = e.message_count + 1 := by
  have hstep : step aid now mid s (.textMsg u uname fname ok)
      = handle_user_messages aid now mid u uname fname ok s := rfl
  rw [hstep, handle_user_messages_support hu hl hin]
  by_cases hw : e.waiting_for_first_message = true
  · rw [handle_user_support_message_first hl hin hw]
    refine ⟨?_, ?_, ?_⟩
    · simp [List.countP_cons, hw]
    · simp [List.countP_cons, hw]
    · exact ⟨_, lookupChat_insert_self u _ s.active_chats, rfl, rfl⟩
  · have hwf : e.waiting_for_first_message = false := by simpa using hw
    rw [handle_user_support_message_next hl hin hwf]
    refine ⟨?_, ?_, ?_⟩
    · simp [List.countP_cons, hwf]
    · simp [List.countP_cons, hwf]
    · exact ⟨_, lookupChat_insert_self u _ s.active_chats, hwf, rfl⟩

theorem claim5_witness :
    ((step 1 0 9 demoState (.textMsg 5 (some "u") "U" (fun _ => true))).2.countP
        (fun a => decide (a = Action.forwardToAdmin 5 true))
      = (if demoEntry.waiting_for_first_message then 1 else 0)) ∧
    ((step 1 0 9 demoState (.textMsg 5 (some "u") "U" (fun _ => true))).2.countP
        (fun a => decide (a = Action.forwardToAdmin 5 false))
      = (if demoEntry.waiting_for_first_message then 0 else 1)) :=
  ⟨(claim5_first_message_framing 1 0 9 5 (some "u") "U" (fun _ => true) demoState demoEntry
      (by decide) rfl rfl).1,
   (claim5_first_message_framing 1 0 9 5 (some "u") "U" (fun _ => true) demoState demoEntry
      (by decide) rfl rfl).2.1⟩

/-- Broadcast mode set with no user rows at all: the resolved target list
is empty. -/
def c6EmptyState : BotState :=
  { initialState with broadcast_type := some BroadcastType.all }

/-- Two active users 2 and 3 and broadcast mode set for the operator 1. -/
def c6State : BotState :=
  { initialState with
      users := [{ user_id := 2, username := none, full_name := "B", first_seen := 0,
                  last_seen := 0, total_messages := 1, is_active := true },
                { user_id := 3, username := none, full_name := "C", first_seen := 0,
                  last_seen := 0, total_messages := 1, is_active := true }],
      broadcast_type := some BroadcastType.all }

/-- Claim C6 (amended): for every broadcast over a nonempty resolved
target list (no duplicates, operator's id absent) in which exactly K
individual sends fail, every target is attempted exactly once and in list
order regardless of failures, and the reported summary counts N targets,
N−K successes and K failures.  As frozen the claim is false at N = 0: an
empty target list yields a no-targets message and no summary at all
(`claim6_counterexample`). -/
theorem claim6_broadcast_counts (aid now mid : Nat) (uname : Option String)
    (fname : String) (ok : Nat → Bool) (s : BotState) (bt : BroadcastType)
    (hb : s.broadcast_type = some bt)
    (hne : resolveTargets bt s ≠ [])
    (hadm : aid ∉ resolveTargets bt s)
    (hnd : (resolveTargets bt s).Nodup) :
    ((step aid now mid s (.textMsg aid uname fname ok)).2.filterMap sendTarget
      = resolveTargets bt s) ∧
    (∀ t ∈ resolveTargets bt s,
      (step aid now mid s (.textMsg aid uname fname ok)).2.countP
        (fun a => decide (a = Action.broadcastSend t)) = 1) ∧
    Action.broadcastSummary (resolveTargets bt s).length
        ((resolveTargets bt s).length - (resolveTargets bt s).countP (fun i => !ok i))
        ((resolveTargets bt s).countP (fun i => !ok i))
      ∈ (step aid now mid s (.textMsg aid uname fname ok)).2 := by
  have hstep : step aid now mid s (.textMsg aid uname fname ok)
      = handle_user_messages aid now mid aid uname fname ok s := rfl
  rw [hstep, handle_user_messages_admin rfl, admin_reply_handler_bcast hb,
      handle_broadcast_run hb hne, broadcastLoop_spec aid ok _ hadm]
  refine ⟨?_, ?_, ?_⟩
  · simp [List.filterMap_append, List.filterMap_cons, sendTarget,
      filterMap_sendTarget_map]
  · intro t ht
    rw [List.countP_append, List.countP_cons_of_neg _ _ (by simp),
        countP_send_map, countP_eq_one_of_nodup hnd ht]
    simp
  · have hcount := countP_ok_add_not ok (resolveTargets bt s)
    have hsucc : (resolveTargets bt s).countP ok
        = (resolveTargets bt s).length
          - (resolveTargets bt s).countP (fun i => !ok i) := by
      omega
    rw [← hsucc]
    simp

/-- Claim C6, refuted as frozen at N = 0: broadcasting with no targets
reports a no-targets message, never a 0/0/0 summary. -/
theorem claim6_counterexample :
    Action.broadcastSummary 0 0 0
        ∉ (step 1 0 9 c6EmptyState (.textMsg 1 none "adm" (fun _ => true))).2 ∧
    (step 1 0 9 c6EmptyState (.textMsg 1 none "adm" (fun _ => true))).2
        = [Action.broadcastNoTargets] := by
  decide

theorem claim6_witness :
    ((step 1 0 9 c6State (.textMsg 1 none "adm" (fun i => decide (i = 2)))).2.filterMap
        sendTarget = resolveTargets BroadcastType.all c6State) ∧
    ((step 1 0 9 c6State (.textMsg 1 none "adm" (fun i => decide (i = 2)))).2.countP
        (fun a => decide (a = Action.broadcastSend 2)) = 1) ∧
    Action.broadcastSummary (resolveTargets BroadcastType.all c6State).length
        ((resolveTargets BroadcastType.all c6State).length
          - (resolveTargets BroadcastType.all c6State).countP (fun i => !(decide (i = 2))))
        ((resolveTargets BroadcastType.all c6State).countP (fun i => !(decide (i = 2))))
      ∈ (step 1 0 9 c6State (.textMsg 1 none "adm" (fun i => decide (i = 2)))).2 :=
  ⟨(claim6_broadcast_counts 1 0 9 none "adm" (fun i => decide (i = 2)) c6State
      BroadcastType.all rfl (by decide) (by decide) (by decide)).1,
   (claim6_broadcast_counts 1 0 9 none "adm" (fun i => decide (i = 2)) c6State
      BroadcastType.all rfl (by decide) (by decide) (by decide)).2.1 2 (by decide),
   (claim6_broadcast_counts 1 0 9 none "adm" (fun i => decide (i = 2)) c6State
      BroadcastType.all rfl (by decide) (by decide) (by decide)).2.2⟩

/-- A table with two `active` sessions left over, owned by users 5 and 6. -/
def demoTwoActive : List SupportSession := [freshSession 1 5 0, freshSession 2 6 0]

/-- Claim C7: the graceful-shutdown cleanup closes every still-`active`
SupportSession row with end reason `system` (its message count left as
last recorded), and afterwards zero rows have status `active` — for any
starting table, including one with two active sessions. -/
theorem claim7_shutdown_closes_all (now : Nat) (l : List SupportSession) :
    ((cleanup_database now l).countP
        (fun sess => decide (sess.status = SessionStatus.active)) = 0) ∧
    (∀ u, countActiveFor u (cleanup_database now l) = 0) ∧
    ∀ sess ∈ l, sess.status = SessionStatus.active →
      { sess with
          ended_at := some now, ended_by := some EndReason.system,
          status := SessionStatus.closed } ∈ cleanup_database now l := by
  refine ⟨?_, fun u => countActiveFor_cleanup now u l, ?_⟩
  · rw [List.countP_eq_zero]
    intro a ha
    simp only [cleanup_database, List.mem_map] at ha
    obtain ⟨b, _, rfl⟩ := ha
    by_cases hb : b.status = SessionStatus.active <;> simp [hb]
  · intro sess hs hact
    simp only [cleanup_database, List.mem_map]
    exact ⟨sess, hs, by rw [if_pos hact]⟩

theorem claim7_witness :
    ((cleanup_database 3 demoTwoActive).countP
        (fun sess => decide (sess.status = SessionStatus.active)) = 0) ∧
    countActiveFor 5 (cleanup_database 3 demoTwoActive) = 0 ∧
    { freshSession 1 5 0 with
        ended_at := some 3, ended_by := some EndReason.system,
        status := SessionStatus.closed } ∈ cleanup_database 3 demoTwoActive :=
  ⟨(claim7_shutdown_closes_all 3 demoTwoActive).1,
   (claim7_shutdown_closes_all 3 demoTwoActive).2.1 5,
   (claim7_shutdown_closes_all 3 demoTwoActive).2.2 (freshSession 1 5 0)
     (by decide) (by decide)⟩

/-- A `users` table holding one row for user 1, first seen at time 10,
with 4 recorded messages. -/
def c8Before : List UserRow :=
  [{ user_id := 1, username := some "a", full_name := "A", first_seen := 10,
     last_seen := 10, total_messages := 4, is_active := true }]

/-- Claim C8 is contradicted by the code (code bug): `update_user_stats`
issues `INSERT OR REPLACE` without listing `first_seen`, so the replacing
row takes the column default `CURRENT_TIMESTAMP`.  Touching the row first
seen at 10 at time 20 bumps `last_seen`, increments `total_messages` and
sets the active flag as claimed — but also resets `first_seen` to 20. -/
theorem claim8_first_seen_reset :
    lookupUser 1 (update_user_stats 20 1 (some "a") "A" c8Before)
      = some { user_id := 1, username := some "a", full_name := "A",
               first_seen := 20, last_seen := 20, total_messages := 5,
               is_active := true } ∧
    (lookupUser 1 c8Before).map (fun r => r.first_seen) = some 10 := by
  decide

/-- User 5 in support who has sent a text (so their user row exists and is
active). -/
def inSupportTexted : BotState :=
  (step 1 1 8 pressOnce (.textMsg 5 (some "u") "U" (fun _ => true))).1

/-- The same user then blocked by the operator. -/
def blockedAfterText : BotState := (step 1 2 9 inSupportTexted (.blockBtn 5)).1

/-- The same user texting again after being blocked. -/
def afterBlockText : BotState :=
  (step 1 3 9 blockedAfterText (.textMsg 5 (some "u") "U" (fun _ => true))).1

/-- Claim C9 (amended): blocking a user with an ActiveChatEntry discards
the entry (they return to `IDLE`), leaves every SupportSession row
untouched (none deleted), and removes the user from the `activeOnly`
listing; they stay excluded under every later event except an unblock or
a text message or `/start` from the blocked user themselves, whose stats
upsert sets the active flag back.  As frozen ("every subsequent listing")
the claim is false: a text from the blocked user re-activates their row
(`claim9_counterexample`). -/
theorem claim9_block_discards_and_excludes (aid now mid u : Nat) (s : BotState)
    (e : ChatEntry) (_hl : lookupChat u s.active_chats = some e) :
    lookupChat u (step aid now mid s (.blockBtn u)).1.active_chats = none ∧
    (step aid now mid s (.blockBtn u)).1.sessions = s.sessions ∧
    u ∉ get_all_user_ids (step aid now mid s (.blockBtn u)).1.users ∧
    ∀ now2 mid2 ev2, ¬ Reactivates u ev2 →
      u ∉ get_all_user_ids
        (step aid now2 mid2 (step aid now mid s (.blockBtn u)).1 ev2).1.users := by
  have hnot : u ∉ get_all_user_ids (step aid now mid s (.blockBtn u)).1.users :=
    notActive_blockUser_self s.users
  exact ⟨lookupChat_remove_self u _, rfl, hnot,
         fun now2 mid2 ev2 hev => notActive_step hnot hev⟩

/-- Claim C9, refuted as frozen: user 5's row is listed while they are in
support, unlisted right after the block, and listed again after a further
text from them. -/
theorem claim9_counterexample :
    (5 : Nat) ∈ get_all_user_ids inSupportTexted.users ∧
    (5 : Nat) ∉ get_all_user_ids blockedAfterText.users ∧
    (5 : Nat) ∈ get_all_user_ids afterBlockText.users := by
  decide

theorem claim9_witness :
    lookupChat 5 (step 1 4 9 demoState (.blockBtn 5)).1.active_chats = none ∧
    (step 1 4 9 demoState (.blockBtn 5)).1.sessions = demoState.sessions ∧
    (5 : Nat) ∉ get_all_user_ids (step 1 4 9 demoState (.blockBtn 5)).1.users ∧
    (5 : Nat) ∉ get_all_user_ids
      (step 1 5 9 (step 1 4 9 demoState (.blockBtn 5)).1 (.helpSupport 6 none "V")).1.users :=
  ⟨(claim9_block_discards_and_excludes 1 4 9 5 demoState demoEntry rfl).1,
   (claim9_block_discards_and_excludes 1 4 9 5 demoState demoEntry rfl).2.1,
   (claim9_block_discards_and_excludes 1 4 9 5 demoState demoEntry rfl).2.2.1,
   (claim9_block_discards_and_excludes 1 4 9 5 demoState demoEntry rfl).2.2.2
     5 9 (.helpSupport 6 none "V") (fun h => h)⟩

end SupportBot
